import Mathlib

/-!
Verification development for the stream-comparison repository: two browser
playback wrappers, ZLMWebRTCPlayer (src/player/zlm-webrtc-player.js) and
ZLMStreamPlayer (src/unnamed/part_000), are shallowly embedded as pure
Lean functions and state machines, and the spec claims about them are
settled as theorems.
-/

namespace StreamComparison

/-- A primitive JSON value, used to model the `code` field of the
signaling response so that the strict JavaScript comparison
`result.code !== 0` can be stated faithfully (a string "0" or a missing
field is not the number 0). -/
inductive JsPrim where
  | jnum (n : Int)
  | jstr (s : String)
  | jbool (b : Bool)
  | jnull
  deriving DecidableEq, Repr

/-- The signaling response seen by `ZLMWebRTCPlayer._connectToZLM`:
the HTTP-level `ok` flag and status of `fetch`, and the fields of the
parsed JSON body that the code reads (`code`, `msg`, `sdp`, `answer`,
`data.sdp`), each `none` when absent. -/
structure ZLMResponse where
  ok : Bool
  status : Nat
  statusText : String
  code : Option JsPrim
  msg : Option String
  sdp : Option String
  answer : Option String
  dataSdp : Option String
  deriving DecidableEq, Repr

/-- JavaScript truthiness of an optional string field: an absent field
(`undefined`) and the empty string are falsy. -/
def strTruthy : Option String → Bool
  | none => false
  | some s => !(s == "")

/-- JavaScript `a || b` on optional string fields: yields `a` when `a` is
truthy, otherwise `b` (even when `b` is falsy). -/
def jsOrStr (a b : Option String) : Option String :=
  if strTruthy a then a else b

/-- The answer-SDP fallback chain of line 207 of zlm-webrtc-player.js:
`result.sdp || result.answer || result.data?.sdp`. -/
def answerSdpOf (r : ZLMResponse) : Option String :=
  jsOrStr r.sdp (jsOrStr r.answer r.dataSdp)

/-- The message attached to the ZLMediaKit application error of line 204:
`result.msg` with default "Unknown error" (JavaScript `||`, so an absent or empty
`msg` falls back to the default). -/
def errMsgOf (r : ZLMResponse) : String :=
  match r.msg with
  | some s => if s == "" then "Unknown error" else s
  | none => "Unknown error"

/-- The errors `_connectToZLM` can throw after the fetch resolves:
the non-2xx HTTP error of line 197, the `code !== 0` application error of
line 204, and the missing-answer error of line 209. -/
inductive ConnectError where
  | serverStatus (status : Nat) (statusText : String)
  | zlmError (msg : String)
  | noAnswer
  deriving DecidableEq, Repr

/-- The response-processing part of `ZLMWebRTCPlayer._connectToZLM`
(lines 196-215): reject non-ok HTTP responses, then reject `code !== 0`
responses with the ZLMediaKit error carrying `msg`, then extract the
answer SDP through the fallback chain and reject when it is falsy;
on success the extracted answer SDP is applied as remote description. -/
def connectToZLM (r : ZLMResponse) : Except ConnectError String :=
  if !r.ok then
    .error (.serverStatus r.status r.statusText)
  else if !(r.code == some (.jnum 0)) then
    .error (.zlmError (errMsgOf r))
  else
    match answerSdpOf r with
    | some s => if s == "" then .error .noAnswer else .ok s
    | none => .error .noAnswer

/-- Whether `connectToZLM` failed at the `code !== 0` check. -/
def isZlmCodeError : Except ConnectError String → Bool
  | .error (.zlmError _) => true
  | _ => false

/-- Whether the handshake reaches `setRemoteDescription` for response `r`
(only the success branch of `_connectToZLM` does). -/
def remoteDescriptionApplied (r : ZLMResponse) : Bool :=
  match connectToZLM r with
  | .ok _ => true
  | .error _ => false

/-- The ICE-gathering timeout of `_waitForIceGathering` (line 252): 5000 ms. -/
def iceGatheringTimeoutMs : Nat := 5000

/-- Resolution time (ms after the call) of the promise returned by
`ZLMWebRTCPlayer._waitForIceGathering` (lines 229-254), as a function of
when ICE gathering reaches the complete state: `some t` means gathering
completes `t` ms after the call (`some 0`: already complete at the call,
resolving on the fast path of line 231), `none` means it never completes.
The `icegatheringstatechange` listener resolves at the completion time,
and the `setTimeout` of line 246 resolves at 5000 ms when the state is
still not complete. -/
def waitForIceGatheringResolveMs : Option Nat → Nat
  | some t => min t iceGatheringTimeoutMs
  | none => iceGatheringTimeoutMs

/-- An HTTP request as assembled by the player. -/
structure HttpRequest where
  method : String
  url : String
  headers : List (String × String)
  body : String
  deriving DecidableEq, Repr

/-- The `Origin` header value of line 189:
`window.location.origin`, with "https://webrtc-client.local" as the
fallback when the origin is falsy. -/
def originHeaderValue (winOrigin : String) : String :=
  if winOrigin == "" then "https://webrtc-client.local" else winOrigin

/-- The signaling request assembled by `_connectToZLM` (lines 185-194):
an HTTP POST to the play URL whose body is the raw local SDP offer, with
the four headers listed in the fetch call. -/
def buildSignalRequest (url offerSdp winOrigin : String) : HttpRequest :=
  { method := "POST"
    url := url
    headers := [("Content-Type", "text/plain;charset=UTF-8"),
                ("Origin", originHeaderValue winOrigin),
                ("Accept", "application/json, text/plain, */*"),
                ("User-Agent", "Mozilla/5.0 (compatible; WebRTCPlayer)")]
    body := offerSdp }

/-- A user-visible callback invocation (the `onConnected`,
`onDisconnected`, `onError`, `onStats` surface of both players). -/
inductive CbEvent where
  | connected
  | disconnected
  | errored
  | stats
  deriving DecidableEq, Repr

/-- A play-level failure of `ZLMWebRTCPlayer.play`: the synchronous
URL-required throw of line 70, or a handshake error rethrown from
`_connectToZLM`. -/
inductive PlayError where
  | urlRequired
  | connect (e : ConnectError)
  deriving DecidableEq, Repr

/-- The mutable state of a `ZLMWebRTCPlayer` instance:
`peerConnection` and `statsInterval` mirror the fields of the same name
(presence of the handle), `srcObject` mirrors whether the video element
holds a media stream. `liveConns` and `liveTimers` are ghost counters of
peer connections created and not yet closed, and of stats timers set and
not yet cleared, used to state the no-leak invariants. -/
structure RTCState where
  peerConnection : Bool
  statsInterval : Bool
  srcObject : Bool
  liveConns : Nat
  liveTimers : Nat
  deriving DecidableEq, Repr

/-- The freshly constructed `ZLMWebRTCPlayer` state (constructor,
lines 26-28). -/
def RTCState.init : RTCState :=
  { peerConnection := false, statsInterval := false, srcObject := false
    liveConns := 0, liveTimers := 0 }

/-- Embeds `ZLMWebRTCPlayer.stop` (lines 139-164): clear the stats timer if
present, close and discard the peer connection if present, stop the
attached tracks and clear the video element source. It invokes no user
callback. -/
def rtcStop (s : RTCState) : RTCState :=
  let s1 := if s.statsInterval then
    { s with statsInterval := false, liveTimers := s.liveTimers - 1 }
  else s
  let s2 := if s1.peerConnection then
    { s1 with peerConnection := false, liveConns := s1.liveConns - 1 }
  else s1
  { s2 with srcObject := false }

/-- Embeds `ZLMWebRTCPlayer._startStatsMonitoring` (lines 260-263): the guard
`if (this.statsInterval) return` makes it a no-op when a timer already
exists; otherwise it sets a new 1-second interval timer. -/
def rtcStartStats (s : RTCState) : RTCState :=
  if s.statsInterval then s
  else { s with statsInterval := true, liveTimers := s.liveTimers + 1 }

/-- Embeds `ZLMWebRTCPlayer.play` (lines 68-134) at the granularity of the
session state: throw synchronously when the URL is empty; otherwise stop
the previous session, create a new peer connection, and run the
signaling handshake on the given server response. On a handshake error
the catch block invokes `onError`, tears down via `stop()`, and rethrows;
on success the connection handle stays live (the `onConnected` callback
fires later, from the ICE connection-state listener). The teardown of
the previous handle and the creation of the new peer connection
(lines 74-80) are `rtcCreatePC`: `stop()` runs first, so the old handle
is closed before the new one exists. -/
def rtcCreatePC (s : RTCState) : RTCState :=
  let s0 := rtcStop s
  { s0 with peerConnection := true, liveConns := s0.liveConns + 1 }

def rtcPlay (s : RTCState) (url : String) (resp : ZLMResponse) :
    RTCState × List CbEvent × Option PlayError :=
  if url == "" then (s, [], some .urlRequired)
  else
    match connectToZLM resp with
    | .ok _ => (rtcCreatePC s, [], none)
    | .error e => (rtcStop (rtcCreatePC s), [.errored], some (.connect e))

/-- An externally observable operation on a `ZLMWebRTCPlayer`: a `play`
or `stop` call, or one of the peer-connection events the player listens
to (ICE connected / disconnected-failed-closed, inbound track). -/
inductive RTCOp where
  | play (url : String) (resp : ZLMResponse)
  | stop
  | iceConnected
  | iceDisconnected
  | trackReceived
  deriving Repr

/-- One step of the `ZLMWebRTCPlayer` state machine: the effect of each
operation on the session state, with the callbacks it fires.
`iceConnected` runs the handler of lines 85-87 (start stats monitoring,
fire `onConnected`); `iceDisconnected` runs lines 88-90; `trackReceived`
runs the `ontrack` handler of lines 103-107. The connection events only
fire while a peer connection exists. -/
def rtcStep (s : RTCState) : RTCOp → RTCState × List CbEvent
  | .play url resp => let r := rtcPlay s url resp; (r.1, r.2.1)
  | .stop => (rtcStop s, [])
  | .iceConnected =>
      if s.peerConnection then (rtcStartStats s, [.connected]) else (s, [])
  | .iceDisconnected =>
      if s.peerConnection then (s, [.disconnected]) else (s, [])
  | .trackReceived =>
      if s.peerConnection then ({ s with srcObject := true }, []) else (s, [])

/-- Run a sequence of operations from the freshly constructed player. -/
def rtcRun (ops : List RTCOp) : RTCState :=
  ops.foldl (fun s op => (rtcStep s op).1) RTCState.init

/-- The `maxReconnectAttempts` field of `ZLMStreamPlayer` (line 51). -/
def maxReconnectAttempts : Nat := 3

/-- The reconnection backoff of line 235: 2000 ms. -/
def reconnectBackoffMs : Nat := 2000

/-- The mutable state of a `ZLMStreamPlayer` instance: `player` and
`statsInterval` mirror the handle fields, `reconnectAttempts` the
counter of the same name. `livePlayers` and `liveTimers` are ghost
counters of mpegts player instances created and not yet destroyed, and
of stats timers set and not yet cleared. -/
structure StreamState where
  player : Bool
  statsInterval : Bool
  reconnectAttempts : Nat
  livePlayers : Nat
  liveTimers : Nat
  deriving DecidableEq, Repr

/-- The freshly constructed `ZLMStreamPlayer` state (lines 47-51). -/
def StreamState.init : StreamState :=
  { player := false, statsInterval := false, reconnectAttempts := 0
    livePlayers := 0, liveTimers := 0 }

/-- Embeds `ZLMStreamPlayer.stop` (lines 267-289): clear the stats timer if
present, destroy the player handle if present, clear the video source,
and — unconditionally, line 288 — invoke `onDisconnected`. -/
def streamStop (s : StreamState) : StreamState × List CbEvent :=
  let s1 := if s.statsInterval then
    { s with statsInterval := false, liveTimers := s.liveTimers - 1 }
  else s
  let s2 := if s1.player then
    { s1 with player := false, livePlayers := s1.livePlayers - 1 }
  else s1
  (s2, [.disconnected])

/-- Embeds `ZLMStreamPlayer._startStatsMonitoring` (lines 295-298): no-op when a
timer already exists, otherwise set a new 1-second interval timer. -/
def streamStartStats (s : StreamState) : StreamState :=
  if s.statsInterval then s
  else { s with statsInterval := true, liveTimers := s.liveTimers + 1 }

/-- Embeds `ZLMStreamPlayer.play` (lines 89-179) at the granularity of the
session state: throw synchronously when the URL is empty; otherwise stop
the previous session, create a new mpegts player, load it, and await
`videoElement.play()` whose success is abstracted by `ok`. On success
start stats monitoring and fire `onConnected`; on failure the catch
block fires `onError`, tears down via `stop()`, and rethrows. The
reconnect-attempt counter is not touched by `play` itself.
`streamCreatePlayer` is the teardown-then-create prefix of `play`
(lines 98-136): `stop()` runs before `mpegts.createPlayer`. -/
def streamCreatePlayer (s : StreamState) : StreamState :=
  let s0 := (streamStop s).1
  { s0 with player := true, livePlayers := s0.livePlayers + 1 }

def streamPlay (s : StreamState) (urlEmpty : Bool) (ok : Bool) :
    StreamState × List CbEvent :=
  if urlEmpty then (s, [])
  else if ok then
    (streamStartStats (streamCreatePlayer s), [.disconnected, .connected])
  else
    ((streamStop (streamCreatePlayer s)).1,
     [.disconnected, .errored, .disconnected])

/-- Outcome of the mpegts `ERROR` event handler of
`ZLMStreamPlayer._setupEventListeners` (lines 207-237): the state after
the handler, whether `onError` fired, whether a stop+replay was
scheduled, and with which backoff. -/
structure ErrorOutcome where
  state : StreamState
  onErrorFired : Bool
  retryScheduled : Bool
  backoffMs : Nat
  deriving DecidableEq, Repr

/-- The mpegts `ERROR` event handler (lines 207-237): `onError` fires on
every error (line 219); then, only for a network-class error with the
counter below `maxReconnectAttempts`, the counter is incremented and a
`stop()` + `play(url, type)` is scheduled 2000 ms later. -/
def handleError (s : StreamState) (isNetwork : Bool) : ErrorOutcome :=
  if isNetwork && decide (s.reconnectAttempts < maxReconnectAttempts) then
    { state := { s with reconnectAttempts := s.reconnectAttempts + 1 }
      onErrorFired := true, retryScheduled := true
      backoffMs := reconnectBackoffMs }
  else
    { state := s, onErrorFired := true, retryScheduled := false, backoffMs := 0 }

/-- The `playing` listener on the video element (lines 245-248): reset
the reconnect-attempt counter to 0. -/
def handlePlaying (s : StreamState) : StreamState :=
  { s with reconnectAttempts := 0 }

/-- Number of automatic reconnections scheduled over the next `n`
network-class errors starting from state `s`, with no intervening
`playing` transition (the sustained-error scenario). -/
def countRetries (s : StreamState) : Nat → Nat
  | 0 => 0
  | n + 1 =>
    let o := handleError s true
    (if o.retryScheduled then 1 else 0) + countRetries o.state n

/-- The state after `n` consecutive network-class errors from the fresh
player state, with no intervening `playing` transition. -/
def afterNetworkErrors : Nat → StreamState
  | 0 => StreamState.init
  | n + 1 => (handleError (afterNetworkErrors n) true).state

/-- An externally observable operation on a `ZLMStreamPlayer`: a `play`
or `stop` call (a scheduled reconnection performs a `stop` followed by a
`play`), an mpegts error event, or a `playing` transition of the video
element. -/
inductive StreamOp where
  | play (urlEmpty : Bool) (ok : Bool)
  | stop
  | errorEvent (isNetwork : Bool)
  | playingEvent
  deriving Repr

/-- One step of the `ZLMStreamPlayer` state machine. -/
def streamStep (s : StreamState) : StreamOp → StreamState × List CbEvent
  | .play urlEmpty ok => streamPlay s urlEmpty ok
  | .stop => streamStop s
  | .errorEvent isNetwork => ((handleError s isNetwork).state, [.errored])
  | .playingEvent => (handlePlaying s, [])

/-- Run a sequence of operations from the freshly constructed player. -/
def streamRun (ops : List StreamOp) : StreamState :=
  ops.foldl (fun s op => (streamStep s op).1) StreamState.init

/-- Resource invariant of a `ZLMWebRTCPlayer` state: the ghost counters
agree with the handle fields, so there is a live peer connection exactly
when `peerConnection` is set, and a live timer exactly when
`statsInterval` is set. -/
def rtcInv (s : RTCState) : Prop :=
  s.liveConns = (if s.peerConnection then 1 else 0) ∧
  s.liveTimers = (if s.statsInterval then 1 else 0)

/-- Resource invariant of a `ZLMStreamPlayer` state. -/
def streamInv (s : StreamState) : Prop :=
  s.livePlayers = (if s.player then 1 else 0) ∧
  s.liveTimers = (if s.statsInterval then 1 else 0)

/-- A concrete signaling response: HTTP 404 with a JSON body carrying a
non-zero application code and a message. -/
def resp404 : ZLMResponse :=
  { ok := false, status := 404, statusText := "Not Found"
    code := some (.jnum 1), msg := some "stream not found"
    sdp := some "v=0", answer := none, dataSdp := none }

/-- A concrete signaling response: HTTP 200 with application code 1 and
a message, mirroring the `stream not found` server reply. -/
def respCode1 : ZLMResponse :=
  { ok := true, status := 200, statusText := "OK"
    code := some (.jnum 1), msg := some "stream not found"
    sdp := none, answer := none, dataSdp := none }

/-- A concrete signaling response: HTTP 200, application code 0, but no
`sdp`, `answer` or `data.sdp` field. -/
def respNoAnswer : ZLMResponse :=
  { ok := true, status := 200, statusText := "OK"
    code := some (.jnum 0), msg := none
    sdp := none, answer := none, dataSdp := none }

/-- A concrete signaling response: HTTP 200 whose `code` field is the
string "0" rather than the number 0. -/
def respStrCode : ZLMResponse :=
  { ok := true, status := 200, statusText := "OK"
    code := some (.jstr "0"), msg := none
    sdp := some "v=0", answer := none, dataSdp := none }

/-- A concrete signaling response: HTTP 200 whose JSON body has no
`code` field at all. -/
def respNoCode : ZLMResponse :=
  { ok := true, status := 200, statusText := "OK"
    code := none, msg := none
    sdp := some "v=0", answer := none, dataSdp := none }

theorem rtcInv_init : rtcInv RTCState.init := by
  constructor <;> rfl

theorem rtcStop_fields (s : RTCState) :
    (rtcStop s).peerConnection = false ∧ (rtcStop s).statsInterval = false ∧
    (rtcStop s).srcObject = false := by
  unfold rtcStop
  cases ht : s.statsInterval <;> cases hp : s.peerConnection <;> simp [ht, hp]

theorem rtcStop_counts (s : RTCState) (h : rtcInv s) :
    (rtcStop s).liveConns = 0 ∧ (rtcStop s).liveTimers = 0 := by
  obtain ⟨h1, h2⟩ := h
  unfold rtcStop
  cases ht : s.statsInterval <;> cases hp : s.peerConnection <;>
    simp [ht, hp] at h1 h2 ⊢ <;> omega

theorem rtcInv_stop (s : RTCState) (h : rtcInv s) : rtcInv (rtcStop s) := by
  obtain ⟨hc, ht⟩ := rtcStop_counts s h
  obtain ⟨hp, hs, _⟩ := rtcStop_fields s
  exact ⟨by simp [hc, hp], by simp [ht, hs]⟩

theorem rtcInv_startStats (s : RTCState) (h : rtcInv s) :
    rtcInv (rtcStartStats s) := by
  obtain ⟨h1, h2⟩ := h
  unfold rtcStartStats
  cases ht : s.statsInterval with
  | true =>
    rw [if_pos rfl]
    exact ⟨h1, h2⟩
  | false =>
    rw [if_neg (by simp)]
    refine ⟨by simpa using h1, ?_⟩
    have hz : s.liveTimers = 0 := by simp [h2, ht]
    simp [hz]

theorem rtcInv_createPC (s : RTCState) (h : rtcInv s) :
    rtcInv (rtcCreatePC s) := by
  obtain ⟨hc, htc⟩ := rtcStop_counts s h
  obtain ⟨hp, hs, _⟩ := rtcStop_fields s
  unfold rtcCreatePC
  exact ⟨by simp [hc], by simp [htc, hs]⟩

theorem rtcInv_play (s : RTCState) (url : String) (resp : ZLMResponse)
    (h : rtcInv s) : rtcInv (rtcPlay s url resp).1 := by
  unfold rtcPlay
  cases hu : (url == "") with
  | true => simpa using h
  | false =>
    cases hc : connectToZLM resp with
    | ok a => simpa using rtcInv_createPC s h
    | error e => simpa using rtcInv_stop _ (rtcInv_createPC s h)

theorem rtcInv_step (s : RTCState) (op : RTCOp) (h : rtcInv s) :
    rtcInv (rtcStep s op).1 := by
  cases op with
  | play url resp => exact rtcInv_play s url resp h
  | stop => exact rtcInv_stop s h
  | iceConnected =>
    cases hp : s.peerConnection <;> simp [rtcStep, hp]
    · exact h
    · exact rtcInv_startStats s h
  | iceDisconnected =>
    cases hp : s.peerConnection <;> simp [rtcStep, hp] <;> exact h
  | trackReceived =>
    cases hp : s.peerConnection <;> simp [rtcStep, hp]
    · exact h
    · obtain ⟨h1, h2⟩ := h
      exact ⟨by simpa [hp] using h1, by simpa using h2⟩

theorem rtcInv_foldl (ops : List RTCOp) :
    ∀ s : RTCState, rtcInv s →
      rtcInv (ops.foldl (fun s op => (rtcStep s op).1) s) := by
  induction ops with
  | nil => intro s h; simpa using h
  | cons op rest ih => intro s h; exact ih _ (rtcInv_step s op h)

theorem rtcInv_run (ops : List RTCOp) : rtcInv (rtcRun ops) :=
  rtcInv_foldl ops RTCState.init rtcInv_init

theorem rtcInv_le (s : RTCState) (h : rtcInv s) :
    s.liveConns ≤ 1 ∧ s.liveTimers ≤ 1 := by
  obtain ⟨h1, h2⟩ := h
  constructor
  · rw [h1]; cases s.peerConnection <;> simp
  · rw [h2]; cases s.statsInterval <;> simp

theorem streamInv_init : streamInv StreamState.init := by
  constructor <;> rfl

theorem streamStop_fields (s : StreamState) :
    (streamStop s).1.player = false ∧ (streamStop s).1.statsInterval = false ∧
    (streamStop s).1.reconnectAttempts = s.reconnectAttempts := by
  unfold streamStop
  cases ht : s.statsInterval <;> cases hp : s.player <;> simp [ht, hp]

theorem streamStop_counts (s : StreamState) (h : streamInv s) :
    (streamStop s).1.livePlayers = 0 ∧ (streamStop s).1.liveTimers = 0 := by
  obtain ⟨h1, h2⟩ := h
  unfold streamStop
  cases ht : s.statsInterval <;> cases hp : s.player <;>
    simp [ht, hp] at h1 h2 ⊢ <;> omega

theorem streamInv_stop (s : StreamState) (h : streamInv s) :
    streamInv (streamStop s).1 := by
  obtain ⟨hc, ht⟩ := streamStop_counts s h
  obtain ⟨hp, hs, _⟩ := streamStop_fields s
  exact ⟨by simp [hc, hp], by simp [ht, hs]⟩

theorem streamInv_startStats (s : StreamState) (h : streamInv s) :
    streamInv (streamStartStats s) := by
  obtain ⟨h1, h2⟩ := h
  unfold streamStartStats
  cases ht : s.statsInterval with
  | true =>
    rw [if_pos rfl]
    exact ⟨h1, h2⟩
  | false =>
    rw [if_neg (by simp)]
    refine ⟨by simpa using h1, ?_⟩
    have hz : s.liveTimers = 0 := by simp [h2, ht]
    simp [hz]

theorem streamInv_createPlayer (s : StreamState) (h : streamInv s) :
    streamInv (streamCreatePlayer s) := by
  obtain ⟨hc, htc⟩ := streamStop_counts s h
  obtain ⟨hp, hs, _⟩ := streamStop_fields s
  unfold streamCreatePlayer
  exact ⟨by simp [hc], by simp [htc, hs]⟩

theorem streamInv_play (s : StreamState) (urlEmpty ok : Bool)
    (h : streamInv s) : streamInv (streamPlay s urlEmpty ok).1 := by
  unfold streamPlay
  cases urlEmpty with
  | true => simpa using h
  | false =>
    cases ok with
    | true => simpa using streamInv_startStats _ (streamInv_createPlayer s h)
    | false => simpa using streamInv_stop _ (streamInv_createPlayer s h)

theorem streamInv_step (s : StreamState) (op : StreamOp) (h : streamInv s) :
    streamInv (streamStep s op).1 := by
  cases op with
  | play urlEmpty ok => exact streamInv_play s urlEmpty ok h
  | stop => exact streamInv_stop s h
  | errorEvent isNetwork =>
    obtain ⟨h1, h2⟩ := h
    show streamInv (handleError s isNetwork).state
    unfold handleError
    by_cases hcond : (isNetwork && decide
        (s.reconnectAttempts < maxReconnectAttempts)) = true
    · rw [if_pos hcond]
      exact ⟨by simpa using h1, by simpa using h2⟩
    · rw [if_neg hcond]
      exact ⟨h1, h2⟩
  | playingEvent =>
    obtain ⟨h1, h2⟩ := h
    unfold streamStep handlePlaying
    exact ⟨by simpa using h1, by simpa using h2⟩

theorem streamInv_foldl (ops : List StreamOp) :
    ∀ s : StreamState, streamInv s →
      streamInv (ops.foldl (fun s op => (streamStep s op).1) s) := by
  induction ops with
  | nil => intro s h; simpa using h
  | cons op rest ih => intro s h; exact ih _ (streamInv_step s op h)

theorem streamInv_run (ops : List StreamOp) : streamInv (streamRun ops) :=
  streamInv_foldl ops StreamState.init streamInv_init

theorem streamInv_le (s : StreamState) (h : streamInv s) :
    s.livePlayers ≤ 1 ∧ s.liveTimers ≤ 1 := by
  obtain ⟨h1, h2⟩ := h
  constructor
  · rw [h1]; cases s.player <;> simp
  · rw [h2]; cases s.statsInterval <;> simp

theorem connectToZLM_notOk (r : ZLMResponse) (h : r.ok = false) :
    connectToZLM r = .error (.serverStatus r.status r.statusText) := by
  unfold connectToZLM
  rw [h]
  rfl

theorem connectToZLM_nonzero (r : ZLMResponse) (hok : r.ok = true)
    (hcode : ¬ r.code = some (.jnum 0)) :
    connectToZLM r = .error (.zlmError (errMsgOf r)) := by
  unfold connectToZLM
  rw [hok]
  rw [if_neg (by simp)]
  rw [if_pos (by simp [hcode])]

theorem connectToZLM_zero (r : ZLMResponse) (hok : r.ok = true)
    (hcode : r.code = some (.jnum 0)) :
    connectToZLM r = (match answerSdpOf r with
      | some s => if s == "" then .error .noAnswer else .ok s
      | none => .error .noAnswer) := by
  unfold connectToZLM
  rw [hok, hcode]
  rfl

theorem handleError_lt (s : StreamState)
    (h : s.reconnectAttempts < maxReconnectAttempts) :
    handleError s true =
      { state := { s with reconnectAttempts := s.reconnectAttempts + 1 }
        onErrorFired := true, retryScheduled := true
        backoffMs := reconnectBackoffMs } := by
  unfold handleError
  rw [if_pos (by simp [h])]

theorem handleError_ge (s : StreamState)
    (h : ¬ s.reconnectAttempts < maxReconnectAttempts) :
    handleError s true =
      { state := s, onErrorFired := true, retryScheduled := false
        backoffMs := 0 } := by
  unfold handleError
  rw [if_neg (by simp [h])]

theorem handleError_notNetwork (s : StreamState) (isNetwork : Bool)
    (h : isNetwork = false) :
    handleError s isNetwork =
      { state := s, onErrorFired := true, retryScheduled := false
        backoffMs := 0 } := by
  unfold handleError
  rw [h, if_neg (by simp)]

theorem streamStartStats_attempts (s : StreamState) :
    (streamStartStats s).reconnectAttempts = s.reconnectAttempts := by
  unfold streamStartStats
  split <;> rfl

theorem streamCreatePlayer_attempts (s : StreamState) :
    (streamCreatePlayer s).reconnectAttempts = s.reconnectAttempts := by
  have h := (streamStop_fields s).2.2
  unfold streamCreatePlayer
  simpa using h

theorem streamPlay_attempts (s : StreamState) (u ok : Bool) :
    (streamPlay s u ok).1.reconnectAttempts = s.reconnectAttempts := by
  unfold streamPlay
  cases u with
  | true => rfl
  | false =>
    cases ok with
    | true =>
      rw [if_neg (by simp), if_pos rfl]
      rw [streamStartStats_attempts, streamCreatePlayer_attempts]
    | false =>
      rw [if_neg (by simp), if_neg (by simp)]
      rw [(streamStop_fields (streamCreatePlayer s)).2.2,
          streamCreatePlayer_attempts]

theorem countRetries_min (n : Nat) :
    ∀ s : StreamState, s.reconnectAttempts ≤ maxReconnectAttempts →
      countRetries s n = min n (maxReconnectAttempts - s.reconnectAttempts) := by
  induction n with
  | zero => intro s h; simp [countRetries]
  | succ n ih =>
    intro s h
    by_cases hlt : s.reconnectAttempts < maxReconnectAttempts
    · have heq := handleError_lt s hlt
      show (if (handleError s true).retryScheduled then 1 else 0) +
        countRetries (handleError s true).state n = _
      rw [heq]
      have hih := ih { s with reconnectAttempts := s.reconnectAttempts + 1 }
        (by simpa using hlt)
      simp only at hih ⊢
      rw [if_pos trivial, hih]
      unfold maxReconnectAttempts at hlt ⊢
      omega
    · have heq := handleError_ge s hlt
      show (if (handleError s true).retryScheduled then 1 else 0) +
        countRetries (handleError s true).state n = _
      rw [heq]
      have hih := ih s h
      simp only at hih ⊢
      rw [if_neg (by simp), hih]
      unfold maxReconnectAttempts at hlt h ⊢
      omega

/-- C1: for every sequence of play/stop calls (and connection events) on
a session of either variant, at most one connection handle — peer
connection for `ZLMWebRTCPlayer`, mpegts player for `ZLMStreamPlayer` —
is live after any call returns, and no duplicate stats timers exist:
`play` tears down any existing handle via `stop()` before creating a new
one, so the ghost counters of live handles and live timers never exceed
one. -/
theorem c1_at_most_one_handle (ops : List RTCOp) (opsP : List StreamOp) :
    (rtcRun ops).liveConns ≤ 1 ∧ (rtcRun ops).liveTimers ≤ 1 ∧
    (streamRun opsP).livePlayers ≤ 1 ∧ (streamRun opsP).liveTimers ≤ 1 := by
  obtain ⟨a, b⟩ := rtcInv_le _ (rtcInv_run ops)
  obtain ⟨c, d⟩ := streamInv_le _ (streamInv_run opsP)
  exact ⟨a, b, c, d⟩

/-- C2: in the progressive session, a network-class playback error with
the reconnect counter below the maximum of 3 schedules a full
stop+replay after a fixed 2000 ms backoff and increments the counter
(and still surfaces the error via `onError`); a non-network error never
schedules a retry and leaves the state unchanged; starting from the
fresh state, a run of sustained network errors schedules exactly
`min n 3` reconnections over its first `n` errors, and at the 4th error
the counter is 3, no retry is scheduled, and the failure is surfaced via
`onError` only. -/
theorem c2_reconnect_policy :
    (∀ s : StreamState, s.reconnectAttempts < maxReconnectAttempts →
      (handleError s true).retryScheduled = true ∧
      (handleError s true).backoffMs = 2000 ∧
      (handleError s true).state.reconnectAttempts = s.reconnectAttempts + 1 ∧
      (handleError s true).onErrorFired = true) ∧
    (∀ s : StreamState, (handleError s false).retryScheduled = false ∧
      (handleError s false).state = s ∧
      (handleError s false).onErrorFired = true) ∧
    (∀ n : Nat, countRetries StreamState.init n = min n 3) ∧
    ((afterNetworkErrors 3).reconnectAttempts = 3 ∧
      (handleError (afterNetworkErrors 3) true).onErrorFired = true ∧
      (handleError (afterNetworkErrors 3) true).retryScheduled = false) := by
  refine ⟨?_, ?_, ?_, ?_⟩
  · intro s h
    rw [handleError_lt s h]
    exact ⟨rfl, rfl, rfl, rfl⟩
  · intro s
    rw [handleError_notNetwork s false rfl]
    exact ⟨rfl, rfl, rfl⟩
  · intro n
    have h := countRetries_min n StreamState.init (by decide)
    simpa using h
  · exact ⟨by decide, by decide, by decide⟩

/-- C2 witness: from a state with counter 2 a network error schedules a
retry, and 7 sustained network errors from the fresh state schedule
exactly 3 reconnections. -/
theorem c2_witness :
    (handleError { StreamState.init with reconnectAttempts := 2 }
      true).retryScheduled = true ∧
    countRetries StreamState.init 7 = 3 := by
  refine ⟨(c2_reconnect_policy.1 _ (by decide)).1, ?_⟩
  have h := c2_reconnect_policy.2.2.1 7
  simpa using h

/-- C3: the wait for ICE candidate gathering in the real-time session
resolves within 5000 ms for every gathering behaviour: immediately when
gathering is already complete at the call, at the completion time when
gathering completes within the deadline, and at the 5000 ms deadline
when gathering has not completed (including never completing), so `play`
never hangs at this step. -/
theorem c3_ice_wait_bounded (c : Option Nat) :
    waitForIceGatheringResolveMs c ≤ 5000 ∧
    (c = some 0 → waitForIceGatheringResolveMs c = 0) ∧
    (∀ t, c = some t → t ≤ 5000 → waitForIceGatheringResolveMs c = t) ∧
    (c = none → waitForIceGatheringResolveMs c = 5000) ∧
    (∀ t, c = some t → 5000 ≤ t → waitForIceGatheringResolveMs c = 5000) := by
  cases c with
  | none =>
    exact ⟨by decide, fun h => Option.noConfusion h,
      fun t h => Option.noConfusion h, fun _ => rfl,
      fun t h => Option.noConfusion h⟩
  | some t =>
    refine ⟨?_, ?_, ?_, fun h => Option.noConfusion h, ?_⟩
    · show min t iceGatheringTimeoutMs ≤ 5000
      unfold iceGatheringTimeoutMs
      omega
    · intro h
      injection h with h1
      subst h1
      rfl
    · intro u hu hle
      injection hu with h1
      subst h1
      show min t iceGatheringTimeoutMs = t
      unfold iceGatheringTimeoutMs
      omega
    · intro u hu hge
      injection hu with h1
      subst h1
      show min t iceGatheringTimeoutMs = 5000
      unfold iceGatheringTimeoutMs
      omega

/-- C3 witness: gathering completing after 12000 ms still lets the wait
resolve at the 5000 ms deadline, completion after 1500 ms resolves at
1500 ms, never completing resolves at 5000 ms, and already-complete
resolves immediately. -/
theorem c3_witness :
    waitForIceGatheringResolveMs (some 12000) = 5000 ∧
    waitForIceGatheringResolveMs (some 1500) = 1500 ∧
    waitForIceGatheringResolveMs none = 5000 ∧
    waitForIceGatheringResolveMs (some 0) = 0 :=
  ⟨(c3_ice_wait_bounded (some 12000)).2.2.2.2 12000 rfl (by decide),
   (c3_ice_wait_bounded (some 1500)).2.2.1 1500 rfl (by decide),
   (c3_ice_wait_bounded none).2.2.2.1 rfl,
   (c3_ice_wait_bounded (some 0)).2.1 rfl⟩

/-- C4 counterexample: a response with HTTP status 404 and body
code 1, msg "stream not found" makes `_connectToZLM` throw the
HTTP-status error of line 197, not an error carrying the body `msg`:
the `code !== 0` check is only reached for 2xx (ok) responses, so the
the claim part "regardless of the HTTP status" fails. -/
theorem c4_counterexample :
    connectToZLM resp404 = .error (.serverStatus 404 "Not Found") ∧
    ¬ connectToZLM resp404 = .error (.zlmError "stream not found") ∧
    (rtcPlay RTCState.init "http://zlm/play" resp404).2.2 =
      some (.connect (.serverStatus 404 "Not Found")) := by
  refine ⟨rfl, ?_, ?_⟩
  · intro h
    rw [connectToZLM_notOk resp404 rfl] at h
    exact ConnectError.noConfusion (Except.error.inj h)
  · rw [rtcPlay, if_neg (by simp), connectToZLM_notOk resp404 rfl]
    rfl

/-- C4 (amended): for a signaling response with a 2xx (ok) HTTP status,
a `code` field different from the number 0 makes `play` reject with the
ZLMediaKit error carrying the response `msg` (or "Unknown error" when
`msg` is absent or empty), invoke `onError`, and tear down via `stop()`
so that no connection handle or timer is left behind; a non-2xx response
instead rejects earlier, with an HTTP-status error, before the `code`
field is read — with the same `onError` and teardown. -/
theorem c4_nonzero_code_rejects (s : RTCState) (url : String)
    (r : ZLMResponse) (hu : ¬ url = "") (hok : r.ok = true)
    (hcode : ¬ r.code = some (.jnum 0)) :
    (rtcPlay s url r).2.2 = some (.connect (.zlmError (errMsgOf r))) ∧
    (rtcPlay s url r).2.1 = [CbEvent.errored] ∧
    (rtcPlay s url r).1.peerConnection = false ∧
    (rtcPlay s url r).1.statsInterval = false ∧
    (rtcInv s → (rtcPlay s url r).1.liveConns = 0 ∧
      (rtcPlay s url r).1.liveTimers = 0) ∧
    (∀ m, r.msg = some m → ¬ m = "" → errMsgOf r = m) := by
  have hconn := connectToZLM_nonzero r hok hcode
  have hplay : rtcPlay s url r =
      (rtcStop (rtcCreatePC s), [.errored],
        some (.connect (.zlmError (errMsgOf r)))) := by
    rw [rtcPlay, if_neg (by simp [hu]), hconn]
  rw [hplay]
  obtain ⟨hp, hs, _⟩ := rtcStop_fields (rtcCreatePC s)
  refine ⟨rfl, rfl, hp, hs, ?_, ?_⟩
  · intro hinv
    exact rtcStop_counts (rtcCreatePC s) (rtcInv_createPC s hinv)
  · intro m hm hne
    unfold errMsgOf
    rw [hm]
    show (if (m == "") = true then "Unknown error" else m) = m
    rw [if_neg (by simpa using hne)]

/-- C4 witness: with an ok (HTTP 200) response carrying code 1 and
msg "stream not found", `play` rejects with the ZLMediaKit error
carrying the msg and leaves no peer connection behind. -/
theorem c4_witness :
    (rtcPlay RTCState.init "http://zlm/play" respCode1).2.2 =
      some (.connect (.zlmError "stream not found")) ∧
    (rtcPlay RTCState.init "http://zlm/play" respCode1).1.peerConnection =
      false ∧
    (rtcPlay RTCState.init "http://zlm/play" respCode1).1.liveConns = 0 := by
  have h := c4_nonzero_code_rejects RTCState.init "http://zlm/play" respCode1
    (by decide) rfl (by decide)
  refine ⟨?_, h.2.2.1, (h.2.2.2.2.1 rtcInv_init).1⟩
  rw [h.1]
  rfl

/-- C5: for an ok response that passes the `code` check, the answer SDP
is extracted through the fallback chain `sdp`, then `answer`, then
`data.sdp`; when all three fields are missing, `play` rejects with the
missing-answer error of line 209. -/
theorem c5_missing_answer (r : ZLMResponse) (hok : r.ok = true)
    (hcode : r.code = some (.jnum 0)) :
    (r.sdp = none → r.answer = none → r.dataSdp = none →
      connectToZLM r = .error .noAnswer) ∧
    (∀ v, r.sdp = some v → ¬ v = "" → connectToZLM r = .ok v) ∧
    (∀ v, strTruthy r.sdp = false → r.answer = some v → ¬ v = "" →
      connectToZLM r = .ok v) ∧
    (∀ v, strTruthy r.sdp = false → strTruthy r.answer = false →
      r.dataSdp = some v → ¬ v = "" → connectToZLM r = .ok v) := by
  have hz := connectToZLM_zero r hok hcode
  refine ⟨?_, ?_, ?_, ?_⟩
  · intro h1 h2 h3
    rw [hz]
    simp [answerSdpOf, jsOrStr, strTruthy, h1, h2, h3]
  · intro v hv hne
    rw [hz]
    simp [answerSdpOf, jsOrStr, strTruthy, hv, hne]
  · intro v hsdp hv hne
    rw [hz]
    simp [answerSdpOf, jsOrStr, hsdp, hv]
    simp [strTruthy, hne]
  · intro v hsdp hans hv hne
    rw [hz]
    simp [answerSdpOf, jsOrStr, hsdp, hans, hv]
    simp [hne]

/-- C5 witness: an ok, code-0 response with none of `sdp`, `answer`,
`data.sdp` makes `_connectToZLM` fail with the missing-answer error. -/
theorem c5_witness : connectToZLM respNoAnswer = .error .noAnswer :=
  (c5_missing_answer respNoAnswer rfl rfl).1 rfl rfl rfl

/-- C6 counterexample: the progressive session method `stop()` invokes
`onDisconnected` unconditionally (line 288 of the source), so calling
`stop()` on the freshly constructed session — when no connection handle
exists — does fire a callback, refuting the claim that no callback fires
in either variant. -/
theorem c6_counterexample :
    (streamStop StreamState.init).2 = [CbEvent.disconnected] ∧
    ¬ (streamStop StreamState.init).2 = [] := by
  decide

/-- C6 (amended): calling `stop()` with no connection handle, no stats
timer (and, for the real-time variant, no attached stream) never throws
and leaves the session state unchanged, and `stop` is idempotent on the
session state for both variants; the real-time `stop` fires no callback,
while the progressive `stop` invokes `onDisconnected` on every call,
including when no handle exists. -/
theorem c6_stop_noop_idempotent :
    (∀ s : RTCState, s.peerConnection = false → s.statsInterval = false →
      s.srcObject = false → rtcStop s = s) ∧
    (∀ s : RTCState, rtcStop (rtcStop s) = rtcStop s) ∧
    (∀ s : RTCState, (rtcStep s RTCOp.stop).2 = []) ∧
    (∀ s : StreamState, s.player = false → s.statsInterval = false →
      (streamStop s).1 = s) ∧
    (∀ s : StreamState,
      (streamStop (streamStop s).1).1 = (streamStop s).1) ∧
    (∀ s : StreamState, (streamStop s).2 = [CbEvent.disconnected]) := by
  have hrtc : ∀ s : RTCState, s.peerConnection = false →
      s.statsInterval = false → s.srcObject = false → rtcStop s = s := by
    intro s h1 h2 h3
    cases s
    subst h1
    subst h2
    subst h3
    rfl
  have hstream : ∀ s : StreamState, s.player = false →
      s.statsInterval = false → (streamStop s).1 = s := by
    intro s h1 h2
    cases s
    subst h1
    subst h2
    rfl
  refine ⟨hrtc, ?_, fun s => rfl, hstream, ?_, fun s => rfl⟩
  · intro s
    obtain ⟨h1, h2, h3⟩ := rtcStop_fields s
    exact hrtc (rtcStop s) h1 h2 h3
  · intro s
    obtain ⟨h1, h2, _⟩ := streamStop_fields s
    exact hstream (streamStop s).1 h1 h2

/-- C6 witness: stopping the freshly constructed sessions leaves their
states unchanged. -/
theorem c6_witness :
    rtcStop RTCState.init = RTCState.init ∧
    (streamStop StreamState.init).1 = StreamState.init :=
  ⟨c6_stop_noop_idempotent.1 RTCState.init rfl rfl rfl,
   c6_stop_noop_idempotent.2.2.2.1 StreamState.init rfl rfl⟩

/-- C7: a "playing" transition of the video surface resets the
reconnect-attempt counter to 0, so a later isolated network-class error
again gets a retry immediately and up to 3 automatic retries over a
sustained run. -/
theorem c7_playing_resets_counter (s : StreamState) :
    (handlePlaying s).reconnectAttempts = 0 ∧
    (handleError (handlePlaying s) true).retryScheduled = true ∧
    (∀ n, countRetries (handlePlaying s) n = min n 3) := by
  refine ⟨rfl, ?_, ?_⟩
  · rw [handleError_lt (handlePlaying s)
      (by simp [handlePlaying, maxReconnectAttempts])]
  · intro n
    have h := countRetries_min n (handlePlaying s)
      (by simp [handlePlaying, maxReconnectAttempts])
    simpa [handlePlaying] using h

/-- C8 counterexample: the header set of the signaling request is not
the three headers Content-Type, Origin, Accept alone: the fetch call of
lines 185-194 also sets a User-Agent header. -/
theorem c8_counterexample :
    ¬ ((buildSignalRequest "http://zlm/play" "v=0 offer"
        "https://page.example").headers.map Prod.fst =
      ["Content-Type", "Origin", "Accept"]) ∧
    "User-Agent" ∈ (buildSignalRequest "http://zlm/play" "v=0 offer"
        "https://page.example").headers.map Prod.fst := by
  decide

/-- C8 (amended): the signaling request is an HTTP POST to the play URL
whose body is the complete local SDP offer as raw text (not
JSON-wrapped), with header set Content-Type: text/plain;charset=UTF-8,
Origin, Accept: application/json, text/plain, */*, plus a User-Agent
header ("Mozilla/5.0 (compatible; WebRTCPlayer)"). -/
theorem c8_signal_request (url offerSdp winOrigin : String) :
    (buildSignalRequest url offerSdp winOrigin).method = "POST" ∧
    (buildSignalRequest url offerSdp winOrigin).url = url ∧
    (buildSignalRequest url offerSdp winOrigin).body = offerSdp ∧
    (buildSignalRequest url offerSdp winOrigin).headers.map Prod.fst =
      ["Content-Type", "Origin", "Accept", "User-Agent"] ∧
    List.lookup "Content-Type"
        (buildSignalRequest url offerSdp winOrigin).headers =
      some "text/plain;charset=UTF-8" ∧
    List.lookup "Origin" (buildSignalRequest url offerSdp winOrigin).headers =
      some (originHeaderValue winOrigin) ∧
    List.lookup "Accept" (buildSignalRequest url offerSdp winOrigin).headers =
      some "application/json, text/plain, */*" ∧
    List.lookup "User-Agent"
        (buildSignalRequest url offerSdp winOrigin).headers =
      some "Mozilla/5.0 (compatible; WebRTCPlayer)" := by
  refine ⟨rfl, rfl, rfl, rfl, ?_, ?_, ?_, ?_⟩ <;> rfl

/-- C9: for an ok (2xx) response, the handshake continues past the
application-code check exactly when the `code` field is present and
equal to the number 0; any other value — a different number, a string
(even "0"), or an absent field — makes `_connectToZLM` throw the
ZLMediaKit error before any remote description is applied. -/
theorem c9_strict_code_check (r : ZLMResponse) (hok : r.ok = true) :
    (isZlmCodeError (connectToZLM r) = true ↔ ¬ r.code = some (.jnum 0)) ∧
    (¬ r.code = some (.jnum 0) → remoteDescriptionApplied r = false) ∧
    (r.code = none → isZlmCodeError (connectToZLM r) = true) := by
  have hfwd : ∀ hc : ¬ r.code = some (.jnum 0),
      isZlmCodeError (connectToZLM r) = true := by
    intro hc
    rw [connectToZLM_nonzero r hok hc]
    rfl
  refine ⟨⟨?_, hfwd⟩, ?_, ?_⟩
  · intro h hc
    rw [connectToZLM_zero r hok hc] at h
    cases ha : answerSdpOf r with
    | none =>
      rw [ha] at h
      simp [isZlmCodeError] at h
    | some v =>
      rw [ha] at h
      dsimp only at h
      by_cases hv : (v == "") = true
      · rw [if_pos hv] at h
        simp [isZlmCodeError] at h
      · rw [if_neg hv] at h
        simp [isZlmCodeError] at h
  · intro hc
    unfold remoteDescriptionApplied
    rw [connectToZLM_nonzero r hok hc]
  · intro hnone
    exact hfwd (by rw [hnone]; simp)

/-- C9 witness: an ok response whose `code` is the string "0" and an ok
response with no `code` field both fail the strict check, and the
string-"0" response never reaches `setRemoteDescription`. -/
theorem c9_witness :
    isZlmCodeError (connectToZLM respStrCode) = true ∧
    isZlmCodeError (connectToZLM respNoCode) = true ∧
    remoteDescriptionApplied respStrCode = false :=
  ⟨(c9_strict_code_check respStrCode rfl).1.mpr (by decide),
   (c9_strict_code_check respNoCode rfl).2.2 rfl,
   (c9_strict_code_check respStrCode rfl).2.1 (by decide)⟩

/-- C10: starting stats monitoring is guarded — when a stats timer
already exists the call is a no-op in both variants — and over every
sequence of operations (including repeated connected/playing
transitions) each session holds at most one live stats timer. -/
theorem c10_stats_timer_guard :
    (∀ s : RTCState, s.statsInterval = true → rtcStartStats s = s) ∧
    (∀ s : StreamState, s.statsInterval = true → streamStartStats s = s) ∧
    (∀ ops : List RTCOp, (rtcRun ops).liveTimers ≤ 1) ∧
    (∀ ops : List StreamOp, (streamRun ops).liveTimers ≤ 1) := by
  refine ⟨?_, ?_, ?_, ?_⟩
  · intro s h
    unfold rtcStartStats
    rw [if_pos h]
  · intro s h
    unfold streamStartStats
    rw [if_pos h]
  · intro ops
    exact (rtcInv_le _ (rtcInv_run ops)).2
  · intro ops
    exact (streamInv_le _ (streamInv_run ops)).2

/-- C10 witness: starting stats monitoring when a timer already exists
changes nothing, in both variants. -/
theorem c10_witness :
    rtcStartStats { RTCState.init with statsInterval := true, liveTimers := 1 } = { RTCState.init with statsInterval := true, liveTimers := 1 } ∧
    streamStartStats { StreamState.init with statsInterval := true, liveTimers := 1 } = { StreamState.init with statsInterval := true, liveTimers := 1 } :=
  ⟨c10_stats_timer_guard.1 _ rfl, c10_stats_timer_guard.2.1 _ rfl⟩

end StreamComparison
